import Mathlib

/-!
Verification development for the SECL rule compiler (Go package `eval` of the
datadog-agent security module).

The definitions below are a shallow embedding of `extractField`,
`identToEvaluator` and the comparison dispatch of `nodeToEvaluator`
(`*ast.Comparison` case).  The evaluator trees a compile produces are
represented deeply, so that "which combinator was dispatched to" is a
structural fact about the result.  Code that the repository provides only as
generated or external helpers — the operator combinators, `compilePattern`,
the glob/regexp engine, `RandString` — is modelled from the specification, as
stated on each such definition.
-/

namespace eval

/-- Source position, mirroring the fields of `lexer.Position` that the
compiler propagates into errors. -/
structure Pos where
  line : Nat
  column : Nat
  deriving DecidableEq

/-- Reflect kinds named by `NewTypeError` (`reflect.Bool`, `reflect.Int`,
`reflect.String`, `reflect.Array`). -/
inductive RKind where
  | bool
  | int
  | string
  | array
  deriving DecidableEq

/-- Typed error surface of the compiler: each Go error constructor becomes one
variant.  `modelError` wraps errors returned verbatim from the external Model;
`genericError` is `NewError` (and, with a zero position, the position-free
`fmt.Errorf` of `extractField`). -/
inductive EvalError where
  | typeError (pos : Pos) (kind : RKind)
  | opUnknown (pos : Pos) (op : String)
  | registerNameNotAllowed (pos : Pos) (regID : String) (msg : String)
  | registerMultipleFields (pos : Pos) (regID : String) (msg : String)
  | nonStaticPattern (field : String)
  | genericError (pos : Pos) (msg : String)
  | modelError (msg : String)
  deriving DecidableEq

/-- Per-event evaluation context; an opaque event handle suffices for this
development. -/
structure Context where
  Event : Nat

/-- Kinds of string field values (`ScalarValueType`, `PatternValueType`,
`RegexpValueType`). -/
inductive FieldValueType where
  | ScalarValueType
  | PatternValueType
  | RegexpValueType
  deriving DecidableEq

/-- A compiled matcher.  The glob/regexp engine is external to the compiled
sources; only the identity of the compiled object matters here. -/
structure Regexp where
  source : String
  deriving DecidableEq

/-- Modelled from the spec (operator override, section 4.4): an override is an
opaque caller-supplied function; it is modelled as a named hook whose
application is recorded in the produced evaluator tree. -/
structure OpOverrides where
  StringEquals : Option String

structure IntEvaluator where
  EvalFnc : Option (Context → Int) := none
  Field : String := ""
  Value : Int := 0
  Weight : Int := 0
  isDuration : Bool := false

structure StringEvaluator where
  EvalFnc : Option (Context → String) := none
  Field : String := ""
  Value : String := ""
  ValueType : FieldValueType := .ScalarValueType
  regexp : Option Regexp := none
  OpOverrides : Option OpOverrides := none

structure BoolArrayEvaluator where
  EvalFnc : Option (Context → List Bool) := none
  Field : String := ""
  Values : List Bool := []
  Weight : Int := 0

structure IntArrayEvaluator where
  EvalFnc : Option (Context → List Int) := none
  Field : String := ""
  Values : List Int := []
  Weight : Int := 0

structure StringArrayEvaluator where
  EvalFnc : Option (Context → List String) := none
  Field : String := ""
  Values : List String := []
  Weight : Int := 0

/-- Deep representation of the boolean evaluators produced by the node
compiler: a `leaf` is a model-provided or literal bool evaluator, every other
constructor records which combinator built the node.  The combinator bodies
live in generated code outside the compiled sources. -/
inductive BoolEvaluator where
  | leaf (EvalFnc : Option (Context → Bool)) (Value : Bool) (Field : String)
  | not (a : BoolEvaluator)
  | boolEquals (a b : BoolEvaluator)
  | intEquals (a b : IntEvaluator)
  | lesserThan (a b : IntEvaluator)
  | lesserOrEqualThan (a b : IntEvaluator)
  | greaterThan (a b : IntEvaluator)
  | greaterOrEqualThan (a b : IntEvaluator)
  | durationLesserThan (a b : IntEvaluator)
  | durationLesserOrEqualThan (a b : IntEvaluator)
  | durationGreaterThan (a b : IntEvaluator)
  | durationGreaterOrEqualThan (a b : IntEvaluator)
  | stringEquals (a b : StringEvaluator)
  | stringOverride (fn : String) (a b : StringEvaluator)
  | arrayBoolContains (a : BoolEvaluator) (b : BoolArrayEvaluator)
  | arrayBoolEquals (a : BoolEvaluator) (b : BoolArrayEvaluator)
  | arrayStringContains (a : StringEvaluator) (b : StringArrayEvaluator)
  | arrayStringMatches (a : StringArrayEvaluator) (b : StringArrayEvaluator)
  | arrayIntEquals (a : IntEvaluator) (b : IntArrayEvaluator)
  | arrayIntMatches (a : IntArrayEvaluator) (b : IntArrayEvaluator)
  | arrayIntLesserThan (a : IntEvaluator) (b : IntArrayEvaluator)
  | arrayIntLesserOrEqualThan (a : IntEvaluator) (b : IntArrayEvaluator)
  | arrayIntGreaterThan (a : IntEvaluator) (b : IntArrayEvaluator)
  | arrayIntGreaterOrEqualThan (a : IntEvaluator) (b : IntArrayEvaluator)

/-- The `interface{}` values flowing through `nodeToEvaluator`. -/
inductive Value where
  | bool (e : BoolEvaluator)
  | boolArray (e : BoolArrayEvaluator)
  | str (e : StringEvaluator)
  | strArray (e : StringArrayEvaluator)
  | int (e : IntEvaluator)
  | intArray (e : IntArrayEvaluator)

/-- An iterator handle supplied by the Model. -/
structure Iterator where
  name : String
  deriving DecidableEq

/-- The external Model collaborator: `GetEvaluator(field, regID)` and
`GetIterator(fieldPath)`, each able to fail with an error string. -/
structure Model where
  GetEvaluator : String → String → Except String Value
  GetIterator : String → Except String Iterator

structure registerInfo where
  field : String
  iterator : Iterator
  subFields : List String
  deriving DecidableEq

/-- Compile state (`state` in the source), scoped to one rule compile.  Go
maps become association lists; `fields` is the accumulated referenced-field
set maintained by `state.UpdateFields` (modelled from the spec: every
successful identifier resolution appends the resolved field name).
`idSupply` models `RandString(8)` (modelled from the spec, register
allocation: a fresh internal id unique within the compile): each anonymous
register use draws the next id from the supply. -/
structure state where
  model : Model
  macros : List (String × Value) := []
  registersInfo : List (String × registerInfo) := []
  fields : List String := []
  idSupply : List String := []

/-- Compile options; `Constants` values are arbitrary compiled values. -/
structure Opts where
  LegacyAttributes : List (String × String) := []
  Constants : List (String × Value) := []

/-- The `ident` wrapper handed to `identToEvaluator`. -/
structure ident where
  Pos : Pos
  Ident : String

/-- Association-list lookup standing in for Go map indexing. -/
def assocFind {β : Type} : List (String × β) → String → Option β
  | [], _ => none
  | (k, v) :: rest, key => if k = key then some v else assocFind rest key

/-- Set-like insertion standing in for `m[x] = true` on a Go map used as a
set. -/
def insertUnique (l : List String) (x : String) : List String :=
  if x ∈ l then l else l ++ [x]

/-- In-place update of an existing association-list entry (Go writes through
the `*registerInfo` pointer stored in the map). -/
def assocUpdate (m : List (String × registerInfo)) (k : String) (v : registerInfo) :
    List (String × registerInfo) :=
  m.map (fun kv => if kv.1 = k then (k, v) else kv)

/-- Modelled from the spec: logical negation combinator (`Not` of the
generated operators); its application is recorded as a `.not` node. -/
def Not (e : BoolEvaluator) (_o : Opts) (_s : state) : BoolEvaluator :=
  .not e

/-- Modelled from the spec: boolean equality combinator. -/
def BoolEquals (a b : BoolEvaluator) (_o : Opts) (_s : state) :
    Except EvalError BoolEvaluator :=
  .ok (.boolEquals a b)

/-- Modelled from the spec: plain integer equality combinator. -/
def IntEquals (a b : IntEvaluator) (_o : Opts) (_s : state) :
    Except EvalError BoolEvaluator :=
  .ok (.intEquals a b)

/-- Modelled from the spec: plain numeric comparison. -/
def LesserThan (a b : IntEvaluator) (_o : Opts) (_s : state) :
    Except EvalError BoolEvaluator :=
  .ok (.lesserThan a b)

/-- Modelled from the spec: plain numeric comparison. -/
def LesserOrEqualThan (a b : IntEvaluator) (_o : Opts) (_s : state) :
    Except EvalError BoolEvaluator :=
  .ok (.lesserOrEqualThan a b)

/-- Modelled from the spec: plain numeric comparison. -/
def GreaterThan (a b : IntEvaluator) (_o : Opts) (_s : state) :
    Except EvalError BoolEvaluator :=
  .ok (.greaterThan a b)

/-- Modelled from the spec: plain numeric comparison. -/
def GreaterOrEqualThan (a b : IntEvaluator) (_o : Opts) (_s : state) :
    Except EvalError BoolEvaluator :=
  .ok (.greaterOrEqualThan a b)

/-- Modelled from the spec: duration-specific comparison. -/
def DurationLesserThan (a b : IntEvaluator) (_o : Opts) (_s : state) :
    Except EvalError BoolEvaluator :=
  .ok (.durationLesserThan a b)

/-- Modelled from the spec: duration-specific comparison. -/
def DurationLesserOrEqualThan (a b : IntEvaluator) (_o : Opts) (_s : state) :
    Except EvalError BoolEvaluator :=
  .ok (.durationLesserOrEqualThan a b)

/-- Modelled from the spec: duration-specific comparison. -/
def DurationGreaterThan (a b : IntEvaluator) (_o : Opts) (_s : state) :
    Except EvalError BoolEvaluator :=
  .ok (.durationGreaterThan a b)

/-- Modelled from the spec: duration-specific comparison. -/
def DurationGreaterOrEqualThan (a b : IntEvaluator) (_o : Opts) (_s : state) :
    Except EvalError BoolEvaluator :=
  .ok (.durationGreaterOrEqualThan a b)

/-- Modelled from the spec: default string equality / pattern matcher. -/
def StringEquals (a b : StringEvaluator) (_o : Opts) (_s : state) :
    Except EvalError BoolEvaluator :=
  .ok (.stringEquals a b)

/-- Modelled from the spec: bool-in-array membership combinator. -/
def ArrayBoolContains (a : BoolEvaluator) (b : BoolArrayEvaluator) (_o : Opts)
    (_s : state) : Except EvalError BoolEvaluator :=
  .ok (.arrayBoolContains a b)

/-- Modelled from the spec: bool against bool-array equality combinator. -/
def ArrayBoolEquals (a : BoolEvaluator) (b : BoolArrayEvaluator) (_o : Opts)
    (_s : state) : Except EvalError BoolEvaluator :=
  .ok (.arrayBoolEquals a b)

/-- Modelled from the spec: string-in-array membership combinator. -/
def ArrayStringContains (a : StringEvaluator) (b : StringArrayEvaluator)
    (_o : Opts) (_s : state) : Except EvalError BoolEvaluator :=
  .ok (.arrayStringContains a b)

/-- Modelled from the spec: any-to-any string array matching combinator. -/
def ArrayStringMatches (a : StringArrayEvaluator) (b : StringArrayEvaluator)
    (_o : Opts) (_s : state) : Except EvalError BoolEvaluator :=
  .ok (.arrayStringMatches a b)

/-- Modelled from the spec: int-in-array membership combinator. -/
def ArrayIntEquals (a : IntEvaluator) (b : IntArrayEvaluator) (_o : Opts)
    (_s : state) : Except EvalError BoolEvaluator :=
  .ok (.arrayIntEquals a b)

/-- Modelled from the spec: any-to-any int array matching combinator. -/
def ArrayIntMatches (a : IntArrayEvaluator) (b : IntArrayEvaluator) (_o : Opts)
    (_s : state) : Except EvalError BoolEvaluator :=
  .ok (.arrayIntMatches a b)

/-- Modelled from the spec: int against int-array comparison. -/
def ArrayIntLesserThan (a : IntEvaluator) (b : IntArrayEvaluator) (_o : Opts)
    (_s : state) : Except EvalError BoolEvaluator :=
  .ok (.arrayIntLesserThan a b)

/-- Modelled from the spec: int against int-array comparison. -/
def ArrayIntLesserOrEqualThan (a : IntEvaluator) (b : IntArrayEvaluator)
    (_o : Opts) (_s : state) : Except EvalError BoolEvaluator :=
  .ok (.arrayIntLesserOrEqualThan a b)

/-- Modelled from the spec: int against int-array comparison. -/
def ArrayIntGreaterThan (a : IntEvaluator) (b : IntArrayEvaluator) (_o : Opts)
    (_s : state) : Except EvalError BoolEvaluator :=
  .ok (.arrayIntGreaterThan a b)

/-- Modelled from the spec: int against int-array comparison. -/
def ArrayIntGreaterOrEqualThan (a : IntEvaluator) (b : IntArrayEvaluator)
    (_o : Opts) (_s : state) : Except EvalError BoolEvaluator :=
  .ok (.arrayIntGreaterOrEqualThan a b)

/-- The external glob/regexp compiler (`PatternToRegexp` / `regexp.Compile`),
modelled as an explicit collaborator parameter: given the raw value and its
kind it yields a compiled matcher or an error message. -/
abbrev PatternCompiler := String → FieldValueType → Except String Regexp

/-- Modelled from the spec (pattern compilation): `compilePattern` compiles
the static string found in pattern position once, at compile time, skipping
evaluators whose matcher is already compiled. -/
def compilePattern (pc : PatternCompiler) (se : StringEvaluator) :
    Except String StringEvaluator :=
  match se.regexp with
  | some _ => .ok se
  | none =>
    match pc se.Value se.ValueType with
    | .ok r => .ok { se with regexp := some r }
    | .error e => .error e

/-- The two nil-checks guarding an operand's override table
(`x.OpOverrides != nil && x.OpOverrides.StringEquals != nil`). -/
def opOverrideStringEquals (s : StringEvaluator) : Option String :=
  match s.OpOverrides with
  | some ov => ov.StringEquals
  | none => none

/-- Characters of a list before and after its first close bracket, if any. -/
def splitAtFirstRBracket : List Char → Option (List Char × List Char)
  | [] => none
  | c :: rest =>
    if c = ']' then some ([], rest)
    else
      match splitAtFirstRBracket rest with
      | some (content, suf) => some (c :: content, suf)
      | none => none

/-- Leftmost-first matching of the Go pattern `\[([^\]]*)\]`: the capture of
the leftmost complete bracket group (content up to the first close bracket
after the first open bracket that has one). -/
def firstBracketCapture : List Char → Option (List Char)
  | [] => none
  | c :: rest =>
    if c = '[' then
      match splitAtFirstRBracket rest with
      | some (content, _) => some content
      | none => none
    else firstBracketCapture rest

/-- Go `Regexp.FindStringSubmatch` for the pattern `\[([^\]]*)\]`: the empty
slice when there is no match, otherwise the matched text followed by the one
capture.  By construction the result length is 0 or 2, which is what makes
the `default` arm of the switch in `extractField` unreachable. -/
def findStringSubmatch (s : String) : List String :=
  match firstBracketCapture s.toList with
  | some content => [String.mk ('[' :: (content ++ [']'])), String.mk content]
  | none => []

/-- Greedy matching of the Go pattern `(.+)\[[^\]]+\](.*)`: characters before
the last complete bracket group with nonempty content, and those after it.
The recursion prefers a group found further right, mirroring the greedy
`.+`.  (Identifiers contain no newline, so `.` behaves as any-char.) -/
def lastBracketSplitAux : List Char → Option (List Char × List Char)
  | [] => none
  | c :: rest =>
    match lastBracketSplitAux rest with
    | some (pre, suf) => some (c :: pre, suf)
    | none =>
      if c = '[' then
        match splitAtFirstRBracket rest with
        | some (content, suf) => if content = [] then none else some ([], suf)
        | none => none
      else none

/-- The `(.+)` prefix of the pattern requires at least one character before
the bracket group: a group at the very start of the identifier is no match. -/
def lastBracketSplit (s : List Char) : Option (List Char × List Char) :=
  match lastBracketSplitAux s with
  | some (pre, suf) => if pre = [] then none else some (pre, suf)
  | none => none

/-- Embedding of `extractField` (source lines 47-66).  `findStringSubmatch`
mirrors the first regexp; the branch on `lastBracketSplit` mirrors the two
`ReplaceAllString` calls of the second regexp (with no match the input string
is returned unchanged, as `ReplaceAllString` does). -/
def extractField (field : String) : Except EvalError (String × String × String) :=
  match findStringSubmatch field with
  | [] => .ok (field, "", "")
  | [_, regID] =>
    match lastBracketSplit field.toList with
    | some (pre, suf) => .ok (String.mk (pre ++ suf), String.mk pre, regID)
    | none => .ok (field, field, regID)
  | _ => .error (.genericError ⟨0, 0⟩ ("wrong register format for fields: " ++ field))

/-- The legacy-attribute transformation of source lines 89-97.  Note that in
the source BOTH lookups key on `field` (the second one keys on the already
remapped normalized field and assigns the result to `itField`). -/
def legacyTransform (t : List (String × String)) (field itField : String) :
    String × String :=
  let field1 := match assocFind t field with
    | some newField => newField
    | none => field
  let itField1 := match assocFind t field1 with
    | some newField => newField
    | none => itField
  (field1, itField1)

/-- The growing dotted prefixes scanned by the implicit-iterator detection
loop (source lines 106-119): for `a.b.c` the candidates `a`, `a.b`, `a.b.c`. -/
def dottedCandidatesAux (cur : String) : List String → List String
  | [] => []
  | n :: rest =>
    let c := cur ++ "." ++ n
    c :: dottedCandidatesAux c rest

def dottedCandidates (field : String) : List String :=
  match field.splitOn "." with
  | [] => []
  | n :: rest => n :: dottedCandidatesAux n rest

/-- First candidate prefix that resolves to a known iterator (errors from
`GetIterator` are swallowed by the scan; the loop ends with a nil iterator
when every candidate fails). -/
def detectIterator (m : Model) : List String → Option Iterator
  | [] => none
  | c :: rest =>
    match m.GetIterator c with
    | .ok it => some it
    | .error _ => detectIterator m rest

/-- The tail of `identToEvaluator` (source lines 151-158): ask the Model for
the concrete evaluator and record the resolved field in the compile state. -/
def finishIdent (pos : Pos) (st : state) (field regID : String) :
    Except EvalError (Value × Pos) × state :=
  match st.model.GetEvaluator field regID with
  | .error e => (.error (.modelError e), st)
  | .ok accessor => (.ok (accessor, pos), { st with fields := insertUnique st.fields field })

/-- The register handling of `identToEvaluator` (source lines 122-149)
followed by the `GetEvaluator` tail.  With an iterator present, only the
placeholder register name is allowed; an anonymous use draws a fresh id from
the supply; an existing binding must agree on the iterator field, otherwise
the compile fails without rebinding. -/
def resolveRegister (obj : ident) (st : state) (field itField regID0 : String)
    (iter : Option Iterator) : Except EvalError (Value × Pos) × state :=
  match iter with
  | none => finishIdent obj.Pos st field regID0
  | some iterator =>
    if regID0 ≠ "" ∧ regID0 ≠ "_" then
      (.error (.registerNameNotAllowed obj.Pos regID0 "only `_` is supported"), st)
    else
      let regID := if regID0 = "" ∨ regID0 = "_" then st.idSupply.headD "" else regID0
      let st1 := if regID0 = "" ∨ regID0 = "_" then { st with idSupply := st.idSupply.tail } else st
      match assocFind st1.registersInfo regID with
      | some info =>
        if info.field ≠ itField then
          (.error (.registerMultipleFields obj.Pos regID "used by multiple fields"), st1)
        else
          let newInfo := { info with subFields := insertUnique info.subFields field }
          let st2 := { st1 with registersInfo := assocUpdate st1.registersInfo regID newInfo }
          finishIdent obj.Pos st2 field regID
      | none =>
        let info : registerInfo := { field := itField, iterator := iterator, subFields := [field] }
        let st2 := { st1 with registersInfo := st1.registersInfo ++ [(regID, info)] }
        finishIdent obj.Pos st2 field regID

/-- Embedding of `identToEvaluator` (source lines 73-159).  Constants, then
macros, then field extraction, legacy remapping, iterator resolution
(directly by the extracted iterator field, else by scanning dotted prefixes),
register binding and finally `GetEvaluator`.  State mutation is explicit: the
updated compile state is returned alongside the result, also on error. -/
def identToEvaluator (obj : ident) (opts : Opts) (st : state) :
    Except EvalError (Value × Pos) × state :=
  match assocFind opts.Constants obj.Ident with
  | some accessor => (.ok (accessor, obj.Pos), st)
  | none =>
    match assocFind st.macros obj.Ident with
    | some v => (.ok (v, obj.Pos), st)
    | none =>
      match extractField obj.Ident with
      | .error e => (.error e, st)
      | .ok (field0, itField0, regID0) =>
        let p := legacyTransform opts.LegacyAttributes field0 itField0
        let field := p.1
        let itField := p.2
        if itField ≠ "" then
          match st.model.GetIterator itField with
          | .error e => (.error (.modelError e), st)
          | .ok it => resolveRegister obj st field itField regID0 (some it)
        else
          resolveRegister obj st field itField regID0
            (detectIterator st.model (dottedCandidates field))

/-- The error-check-and-return idiom shared by every comparison arm
(`if err != nil { return nil, pos, err }; return boolEvaluator, obj.Pos, nil`). -/
def wrapBool (r : Except EvalError BoolEvaluator) (objPos : Pos) :
    Except EvalError (Value × Pos) :=
  match r with
  | .error e => .error e
  | .ok be => .ok (.bool be, objPos)

/-- Same idiom for the arms that negate the combinator's result
(`return Not(boolEvaluator, opts, state), obj.Pos, nil`). -/
def wrapBoolNot (r : Except EvalError BoolEvaluator) (objPos : Pos)
    (opts : Opts) (st : state) : Except EvalError (Value × Pos) :=
  match r with
  | .error e => .error e
  | .ok be => .ok (.bool (Not be opts st), objPos)

/-- The override resolution of the string `==` arm (source lines 484-491):
left operand's StringEquals hook, else right operand's, else the default
StringEquals. -/
def stringEqualsResolve (u n : StringEvaluator) (opts : Opts) (st : state) :
    Except EvalError BoolEvaluator :=
  match opOverrideStringEquals u with
  | some f => .ok (.stringOverride f u n)
  | none =>
    match opOverrideStringEquals n with
    | some f => .ok (.stringOverride f u n)
    | none => StringEquals u n opts st

/-- The shared prologue of the `=~` / `!~` arms (source lines 470-477 and
496-503 and their StringArray twins): a right operand with a deferred
function is a non-static pattern; otherwise its pattern is compiled now, a
failure aborting with the comparison's position. -/
def patternPrematch (pc : PatternCompiler) (n : StringEvaluator) (objPos : Pos) :
    Except EvalError StringEvaluator :=
  match n.EvalFnc with
  | some _ => .error (.nonStaticPattern n.Field)
  | none =>
    match compilePattern pc n with
    | .error msg => .error (.genericError objPos msg)
    | .ok n1 => .ok n1

/-- Error propagation from the pattern prologue into the comparison arm. -/
def bindPattern (r : Except EvalError StringEvaluator)
    (k : StringEvaluator → Except EvalError (Value × Pos)) :
    Except EvalError (Value × Pos) :=
  match r with
  | .error e => .error e
  | .ok n1 => k n1

/-- Bool left operand, Bool right operand (source lines 415-435). -/
def boolBoolCompare (u n : BoolEvaluator) (op : String) (objPos : Pos)
    (opts : Opts) (st : state) : Except EvalError (Value × Pos) :=
  match op with
  | "!=" => wrapBoolNot (BoolEquals u n opts st) objPos opts st
  | "==" => wrapBool (BoolEquals u n opts st) objPos
  | _ => .error (.opUnknown objPos op)

def boolScalarCompare (u : BoolEvaluator) (next : Value) (op : String)
    (pos objPos : Pos) (opts : Opts) (st : state) : Except EvalError (Value × Pos) :=
  match next with
  | .bool n => boolBoolCompare u n op objPos opts st
  | _ => .error (.typeError pos .bool)

/-- BoolArray left operand, Bool right operand (source lines 436-456);
operands are passed to ArrayBoolEquals swapped. -/
def boolArrayBoolCompare (u : BoolArrayEvaluator) (n : BoolEvaluator)
    (op : String) (objPos : Pos) (opts : Opts) (st : state) :
    Except EvalError (Value × Pos) :=
  match op with
  | "!=" => wrapBoolNot (ArrayBoolEquals n u opts st) objPos opts st
  | "==" => wrapBool (ArrayBoolEquals n u opts st) objPos
  | _ => .error (.opUnknown objPos op)

def boolArrayScalarCompare (u : BoolArrayEvaluator) (next : Value) (op : String)
    (pos objPos : Pos) (opts : Opts) (st : state) : Except EvalError (Value × Pos) :=
  match next with
  | .bool n => boolArrayBoolCompare u n op objPos opts st
  | _ => .error (.typeError pos .bool)

/-- String left operand, String right operand (source lines 457-511). -/
def stringStringCompare (pc : PatternCompiler) (u n : StringEvaluator)
    (op : String) (objPos : Pos) (opts : Opts) (st : state) :
    Except EvalError (Value × Pos) :=
  match op with
  | "!=" => wrapBoolNot (StringEquals u n opts st) objPos opts st
  | "!~" =>
    bindPattern (patternPrematch pc n objPos)
      (fun n1 => wrapBoolNot (StringEquals u n1 opts st) objPos opts st)
  | "==" => wrapBool (stringEqualsResolve u n opts st) objPos
  | "=~" =>
    bindPattern (patternPrematch pc n objPos)
      (fun n1 => wrapBool (StringEquals u n1 opts st) objPos)
  | _ => .error (.opUnknown objPos op)

def stringScalarCompare (pc : PatternCompiler) (u : StringEvaluator)
    (next : Value) (op : String) (pos objPos : Pos) (opts : Opts) (st : state) :
    Except EvalError (Value × Pos) :=
  match next with
  | .str n => stringStringCompare pc u n op objPos opts st
  | _ => .error (.typeError pos .string)

/-- StringArray left operand, String right operand (source lines 512-559).
An unrecognized operator falls out of the whole `Comparison` case and
reaches the unknown-entity tail of `nodeToEvaluator` (source line 813). -/
def stringArrayStringCompare (pc : PatternCompiler) (u : StringArrayEvaluator)
    (n : StringEvaluator) (op : String) (objPos : Pos) (opts : Opts) (st : state) :
    Except EvalError (Value × Pos) :=
  match op with
  | "!=" => wrapBoolNot (ArrayStringContains n u opts st) objPos opts st
  | "==" => wrapBool (ArrayStringContains n u opts st) objPos
  | "!~" =>
    bindPattern (patternPrematch pc n objPos)
      (fun n1 => wrapBoolNot (ArrayStringContains n1 u opts st) objPos opts st)
  | "=~" =>
    bindPattern (patternPrematch pc n objPos)
      (fun n1 => wrapBool (ArrayStringContains n1 u opts st) objPos)
  | _ => .error (.genericError ⟨0, 0⟩ "unknown entity")

def stringArrayScalarCompare (pc : PatternCompiler) (u : StringArrayEvaluator)
    (next : Value) (op : String) (pos objPos : Pos) (opts : Opts) (st : state) :
    Except EvalError (Value × Pos) :=
  match next with
  | .str n => stringArrayStringCompare pc u n op objPos opts st
  | _ => .error (.typeError pos .string)

/-- Int left, Int right, duration flag set on the right operand (source
lines 563-589): only the four ordering operators are handled; any other
operator falls out of the switch to the type error of source line 677. -/
def intDurationCompare (u n : IntEvaluator) (op : String) (pos objPos : Pos)
    (opts : Opts) (st : state) : Except EvalError (Value × Pos) :=
  match op with
  | "<" => wrapBool (DurationLesserThan u n opts st) objPos
  | "<=" => wrapBool (DurationLesserOrEqualThan u n opts st) objPos
  | ">" => wrapBool (DurationGreaterThan u n opts st) objPos
  | ">=" => wrapBool (DurationGreaterOrEqualThan u n opts st) objPos
  | _ => .error (.typeError pos .int)

/-- Int left, Int right, duration flag clear on the right operand (source
lines 590-632). -/
def intPlainCompare (u n : IntEvaluator) (op : String) (objPos : Pos)
    (opts : Opts) (st : state) : Except EvalError (Value × Pos) :=
  match op with
  | "<" => wrapBool (LesserThan u n opts st) objPos
  | "<=" => wrapBool (LesserOrEqualThan u n opts st) objPos
  | ">" => wrapBool (GreaterThan u n opts st) objPos
  | ">=" => wrapBool (GreaterOrEqualThan u n opts st) objPos
  | "!=" => wrapBoolNot (IntEquals u n opts st) objPos opts st
  | "==" => wrapBool (IntEquals u n opts st) objPos
  | _ => .error (.opUnknown objPos op)

/-- The branch on `nextInt.isDuration` of source line 563. -/
def intIntCompare (u n : IntEvaluator) (op : String) (pos objPos : Pos)
    (opts : Opts) (st : state) : Except EvalError (Value × Pos) :=
  if n.isDuration then intDurationCompare u n op pos objPos opts st
  else intPlainCompare u n op objPos opts st

/-- Int left operand, IntArray right operand (source lines 633-675). -/
def intIntArrayCompare (u : IntEvaluator) (n : IntArrayEvaluator) (op : String)
    (objPos : Pos) (opts : Opts) (st : state) : Except EvalError (Value × Pos) :=
  match op with
  | "<" => wrapBool (ArrayIntLesserThan u n opts st) objPos
  | "<=" => wrapBool (ArrayIntLesserOrEqualThan u n opts st) objPos
  | ">" => wrapBool (ArrayIntGreaterThan u n opts st) objPos
  | ">=" => wrapBool (ArrayIntGreaterOrEqualThan u n opts st) objPos
  | "!=" => wrapBoolNot (ArrayIntEquals u n opts st) objPos opts st
  | "==" => wrapBool (ArrayIntEquals u n opts st) objPos
  | _ => .error (.opUnknown objPos op)

/-- Int left operand (source lines 560-677): a right operand that is neither
Int nor IntArray reaches the type error of source line 677. -/
def intScalarCompare (u : IntEvaluator) (next : Value) (op : String)
    (pos objPos : Pos) (opts : Opts) (st : state) : Except EvalError (Value × Pos) :=
  match next with
  | .int n => intIntCompare u n op pos objPos opts st
  | .intArray n => intIntArrayCompare u n op objPos opts st
  | _ => .error (.typeError pos .int)

/-- IntArray left operand, Int right operand (source lines 678-722):
operands are handed to the array combinators swapped, with the ordering
operators mirrored. -/
def intArrayIntCompare (u : IntArrayEvaluator) (n : IntEvaluator) (op : String)
    (objPos : Pos) (opts : Opts) (st : state) : Except EvalError (Value × Pos) :=
  match op with
  | "<" => wrapBool (ArrayIntGreaterThan n u opts st) objPos
  | "<=" => wrapBool (ArrayIntGreaterOrEqualThan n u opts st) objPos
  | ">" => wrapBool (ArrayIntLesserThan n u opts st) objPos
  | ">=" => wrapBool (ArrayIntLesserOrEqualThan n u opts st) objPos
  | "!=" => wrapBoolNot (ArrayIntEquals n u opts st) objPos opts st
  | "==" => wrapBool (ArrayIntEquals n u opts st) objPos
  | _ => .error (.opUnknown objPos op)

def intArrayScalarCompare (u : IntArrayEvaluator) (next : Value) (op : String)
    (pos objPos : Pos) (opts : Opts) (st : state) : Except EvalError (Value × Pos) :=
  match next with
  | .int n => intArrayIntCompare u n op objPos opts st
  | _ => .error (.typeError pos .int)

/-- Scalar-comparison dispatch of `nodeToEvaluator` (source lines 408-726),
with both operands already compiled.  `pos` is the position returned while
compiling the right operand, `objPos` the position of the comparison node.
Each arm of the type switch on the left operand is its own definition
above. -/
def scalarComparisonToEvaluator (pc : PatternCompiler) (unary next : Value)
    (op : String) (pos objPos : Pos) (opts : Opts) (st : state) :
    Except EvalError (Value × Pos) :=
  match unary with
  | .bool u => boolScalarCompare u next op pos objPos opts st
  | .boolArray u => boolArrayScalarCompare u next op pos objPos opts st
  | .str u => stringScalarCompare pc u next op pos objPos opts st
  | .strArray u => stringArrayScalarCompare pc u next op pos objPos opts st
  | .int u => intScalarCompare u next op pos objPos opts st
  | .intArray u => intArrayScalarCompare u next op pos objPos opts st

/-- The error-check idiom of the membership arms, followed by the negation
for `notin` (`if *obj.ArrayComparison.Op == "notin" { return Not(...) }`). -/
def wrapArrayOp (r : Except EvalError BoolEvaluator) (op : String) (objPos : Pos)
    (opts : Opts) (st : state) : Except EvalError (Value × Pos) :=
  match r with
  | .error e => .error e
  | .ok be =>
    if op = "notin" then .ok (.bool (Not be opts st), objPos)
    else .ok (.bool be, objPos)

/-- Array-membership dispatch of `nodeToEvaluator` (source lines 328-407),
with both operands already compiled.  Every pairing builds the positive
membership test and wraps it in `Not` exactly when the operator is `notin`. -/
def arrayComparisonToEvaluator (unary next : Value) (op : String)
    (pos objPos : Pos) (opts : Opts) (st : state) :
    Except EvalError (Value × Pos) :=
  match unary with
  | .bool u =>
    match next with
    | .boolArray n => wrapArrayOp (ArrayBoolContains u n opts st) op objPos opts st
    | _ => .error (.typeError pos .array)
  | .str u =>
    match next with
    | .strArray n => wrapArrayOp (ArrayStringContains u n opts st) op objPos opts st
    | _ => .error (.typeError pos .array)
  | .strArray u =>
    match next with
    | .strArray n => wrapArrayOp (ArrayStringMatches u n opts st) op objPos opts st
    | _ => .error (.typeError pos .array)
  | .int u =>
    match next with
    | .intArray n => wrapArrayOp (ArrayIntEquals u n opts st) op objPos opts st
    | _ => .error (.typeError pos .array)
  | .intArray u =>
    match next with
    | .intArray n => wrapArrayOp (ArrayIntMatches u n opts st) op objPos opts st
    | _ => .error (.typeError pos .array)
  | .boolArray _ => .error (.typeError pos .array)

/-- Value of an int evaluator on a context: the deferred function if present,
else the static value. -/
def evalInt (e : IntEvaluator) (ctx : Context) : Int :=
  match e.EvalFnc with
  | some f => f ctx
  | none => e.Value

def evalStr (e : StringEvaluator) (ctx : Context) : String :=
  match e.EvalFnc with
  | some f => f ctx
  | none => e.Value

def evalBoolArray (e : BoolArrayEvaluator) (ctx : Context) : List Bool :=
  match e.EvalFnc with
  | some f => f ctx
  | none => e.Values

def evalIntArray (e : IntArrayEvaluator) (ctx : Context) : List Int :=
  match e.EvalFnc with
  | some f => f ctx
  | none => e.Values

def evalStrArray (e : StringArrayEvaluator) (ctx : Context) : List String :=
  match e.EvalFnc with
  | some f => f ctx
  | none => e.Values

/-- Modelled from the spec: evaluation semantics of the produced evaluator
trees.  Negation negates, equality compares, membership is an any-match over
the array.  The internals of duration comparison, pattern matching and
overrides live outside the compiled sources; no claim below depends on them
and they are given natural readings (value comparison, value equality). -/
def evalBool : BoolEvaluator → Context → Bool
  | .leaf fn v _, ctx =>
    match fn with
    | some f => f ctx
    | none => v
  | .not a, ctx => !(evalBool a ctx)
  | .boolEquals a b, ctx => evalBool a ctx == evalBool b ctx
  | .intEquals a b, ctx => evalInt a ctx == evalInt b ctx
  | .lesserThan a b, ctx => decide (evalInt a ctx < evalInt b ctx)
  | .lesserOrEqualThan a b, ctx => decide (evalInt a ctx ≤ evalInt b ctx)
  | .greaterThan a b, ctx => decide (evalInt b ctx < evalInt a ctx)
  | .greaterOrEqualThan a b, ctx => decide (evalInt b ctx ≤ evalInt a ctx)
  | .durationLesserThan a b, ctx => decide (evalInt a ctx < evalInt b ctx)
  | .durationLesserOrEqualThan a b, ctx => decide (evalInt a ctx ≤ evalInt b ctx)
  | .durationGreaterThan a b, ctx => decide (evalInt b ctx < evalInt a ctx)
  | .durationGreaterOrEqualThan a b, ctx => decide (evalInt b ctx ≤ evalInt a ctx)
  | .stringEquals a b, ctx => evalStr a ctx == evalStr b ctx
  | .stringOverride _ a b, ctx => evalStr a ctx == evalStr b ctx
  | .arrayBoolContains a b, ctx => (evalBoolArray b ctx).contains (evalBool a ctx)
  | .arrayBoolEquals a b, ctx => (evalBoolArray b ctx).contains (evalBool a ctx)
  | .arrayStringContains a b, ctx => (evalStrArray b ctx).contains (evalStr a ctx)
  | .arrayStringMatches a b, ctx =>
    (evalStrArray a ctx).any (fun x => (evalStrArray b ctx).contains x)
  | .arrayIntEquals a b, ctx => (evalIntArray b ctx).contains (evalInt a ctx)
  | .arrayIntMatches a b, ctx =>
    (evalIntArray a ctx).any (fun x => (evalIntArray b ctx).contains x)
  | .arrayIntLesserThan a b, ctx =>
    (evalIntArray b ctx).any (fun x => decide (evalInt a ctx < x))
  | .arrayIntLesserOrEqualThan a b, ctx =>
    (evalIntArray b ctx).any (fun x => decide (evalInt a ctx ≤ x))
  | .arrayIntGreaterThan a b, ctx =>
    (evalIntArray b ctx).any (fun x => decide (x < evalInt a ctx))
  | .arrayIntGreaterOrEqualThan a b, ctx =>
    (evalIntArray b ctx).any (fun x => decide (x ≤ evalInt a ctx))

/-! Concrete instances used by the witnesses and counterexamples below. -/

def posA : Pos := ⟨1, 2⟩

def posB : Pos := ⟨1, 9⟩

/-- A sample external pattern compiler: fails on the lone open parenthesis
(an invalid regexp), succeeds on everything else. -/
def pcSample : PatternCompiler := fun v _ =>
  if v = "(" then .error "error parsing regexp" else .ok ⟨v⟩

def optsNone : Opts := {}

def intPlain : IntEvaluator := { Value := 10 }

def intDur : IntEvaluator := { Value := 5, isDuration := true }

def strPlain : StringEvaluator := { Value := "a" }

def strPat : StringEvaluator := { Value := "abc*", ValueType := .PatternValueType }

def strBad : StringEvaluator := { Value := "(", ValueType := .RegexpValueType }

def strDyn : StringEvaluator := { EvalFnc := some (fun _ => "x"), Field := "f2" }

def strOvL : StringEvaluator := { Value := "b", OpOverrides := some { StringEquals := some "ovL" } }

def strArrSample : StringArrayEvaluator := { Values := ["a", "b"] }

def leafTrue : BoolEvaluator := .leaf none true ""

def boolArrSample : BoolArrayEvaluator := { Values := [true] }

def modelNoIter : Model :=
  { GetEvaluator := fun f _ => .ok (.int { Field := f }),
    GetIterator := fun _ => .error "no iterator" }

def stPlain : state := { model := modelNoIter }

def modelIter : Model :=
  { GetEvaluator := fun f _ => .ok (.int { Field := f }),
    GetIterator := fun f => if f = "p.list" then .ok ⟨"iterP"⟩ else .error "unknown iterator" }

def modelIterNoEval : Model :=
  { GetEvaluator := fun _ _ => .error "field not found",
    GetIterator := fun f => if f = "p.list" then .ok ⟨"iterP"⟩ else .error "unknown iterator" }

def modelLegacy : Model :=
  { GetEvaluator := fun f _ => .ok (.int { Field := f }),
    GetIterator := fun f =>
      if f = "old" then .ok ⟨"iterOld"⟩
      else if f = "new_it" then .ok ⟨"iterNew"⟩
      else .error "unknown iterator" }

def optsLegacy : Opts := { LegacyAttributes := [("old", "new_it")] }

def stLegacy : state := { model := modelLegacy, idSupply := ["r1"] }

def stIter : state := { model := modelIter, idSupply := ["r1", "r2"] }

/-- Compile state after resolving `p.list[_].a` in `stIter`. -/
def stIterA : state := (identToEvaluator ⟨posA, "p.list[_].a"⟩ optsNone stIter).2

/-- Compile state after additionally resolving `p.list[_].b`. -/
def stIterB : state := (identToEvaluator ⟨posB, "p.list[_].b"⟩ optsNone stIterA).2

/-- A state whose supply will hand out an id already bound to a different
iterator field. -/
def stConflict : state :=
  { model := modelIter, idSupply := ["r1"],
    registersInfo := [("r1", { field := "other.list", iterator := ⟨"iterO"⟩, subFields := ["other.list.x"] })] }

/-- A state whose supply will hand out an id already bound to the same
iterator field. -/
def stSameField : state :=
  { model := modelIter, idSupply := ["r1"],
    registersInfo := [("r1", { field := "p.list", iterator := ⟨"iterP"⟩, subFields := ["p.list.x"] })] }

def stNoEval : state := { model := modelIterNoEval, idSupply := ["r1"] }

/-- C1 (amended): for a scalar comparison between two Int evaluators compiled
by the node compiler, the ordering operators dispatch on the RIGHT operand's
duration flag: when it is set they compile to the duration-specific
comparisons (DurationLesserThan and friends), otherwise to the plain numeric
comparisons; the left operand's flag plays no role. -/
theorem int_ordering_dispatch_right_flag (pc : PatternCompiler)
    (L R : IntEvaluator) (p q : Pos) (opts : Opts) (st : state) :
    (R.isDuration = true →
      scalarComparisonToEvaluator pc (.int L) (.int R) "<" p q opts st
        = .ok (.bool (.durationLesserThan L R), q) ∧
      scalarComparisonToEvaluator pc (.int L) (.int R) "<=" p q opts st
        = .ok (.bool (.durationLesserOrEqualThan L R), q) ∧
      scalarComparisonToEvaluator pc (.int L) (.int R) ">" p q opts st
        = .ok (.bool (.durationGreaterThan L R), q) ∧
      scalarComparisonToEvaluator pc (.int L) (.int R) ">=" p q opts st
        = .ok (.bool (.durationGreaterOrEqualThan L R), q)) ∧
    (R.isDuration = false →
      scalarComparisonToEvaluator pc (.int L) (.int R) "<" p q opts st
        = .ok (.bool (.lesserThan L R), q) ∧
      scalarComparisonToEvaluator pc (.int L) (.int R) "<=" p q opts st
        = .ok (.bool (.lesserOrEqualThan L R), q) ∧
      scalarComparisonToEvaluator pc (.int L) (.int R) ">" p q opts st
        = .ok (.bool (.greaterThan L R), q) ∧
      scalarComparisonToEvaluator pc (.int L) (.int R) ">=" p q opts st
        = .ok (.bool (.greaterOrEqualThan L R), q)) := by
  constructor
  · intro h
    obtain ⟨fn, fld, v, w, d⟩ := R
    subst h
    exact ⟨rfl, rfl, rfl, rfl⟩
  · intro h
    obtain ⟨fn, fld, v, w, d⟩ := R
    subst h
    exact ⟨rfl, rfl, rfl, rfl⟩

/-- C1 witness: a duration right operand selects DurationLesserThan, a plain
right operand selects LesserThan (even under a duration left operand). -/
theorem int_ordering_dispatch_right_flag_witness :
    scalarComparisonToEvaluator pcSample (.int intDur) (.int intDur) "<" posA posB optsNone stPlain
      = .ok (.bool (.durationLesserThan intDur intDur), posB) ∧
    scalarComparisonToEvaluator pcSample (.int intDur) (.int intPlain) "<" posA posB optsNone stPlain
      = .ok (.bool (.lesserThan intDur intPlain), posB) :=
  ⟨((int_ordering_dispatch_right_flag pcSample intDur intDur posA posB optsNone stPlain).1 rfl).1,
   ((int_ordering_dispatch_right_flag pcSample intDur intPlain posA posB optsNone stPlain).2 rfl).1⟩

/-- C1 counterexample: with the duration flag set on the LEFT operand only,
`<` compiles to the plain LesserThan, not to DurationLesserThan, refuting the
claim that the left operand's flag selects the duration comparisons. -/
theorem int_ordering_left_flag_counterexample :
    scalarComparisonToEvaluator pcSample (.int intDur) (.int intPlain) "<" posA posB optsNone stPlain
      = .ok (.bool (.lesserThan intDur intPlain), posB) ∧
    (Except.ok (Value.bool (.lesserThan intDur intPlain), posB) : Except EvalError (Value × Pos))
      ≠ .ok (.bool (.durationLesserThan intDur intPlain), posB) := by
  refine ⟨rfl, fun hcontra => ?_⟩
  simp at hcontra

/-- C2 (amended): for a scalar comparison between two Int evaluators, `==`
and `!=` compile to plain integer equality (IntEquals, negated for `!=`)
whenever the RIGHT operand does not carry the duration flag — the left
operand's flag is irrelevant; when the right operand carries the flag, `==`
and `!=` fall out of the duration operator switch and fail with a type
error at the right operand's position. -/
theorem int_equality_dispatch (pc : PatternCompiler)
    (L R : IntEvaluator) (p q : Pos) (opts : Opts) (st : state) :
    (R.isDuration = false →
      scalarComparisonToEvaluator pc (.int L) (.int R) "==" p q opts st
        = .ok (.bool (.intEquals L R), q) ∧
      scalarComparisonToEvaluator pc (.int L) (.int R) "!=" p q opts st
        = .ok (.bool (.not (.intEquals L R)), q)) ∧
    (R.isDuration = true →
      scalarComparisonToEvaluator pc (.int L) (.int R) "==" p q opts st
        = .error (.typeError p .int) ∧
      scalarComparisonToEvaluator pc (.int L) (.int R) "!=" p q opts st
        = .error (.typeError p .int)) := by
  constructor
  · intro h
    obtain ⟨fn, fld, v, w, d⟩ := R
    subst h
    exact ⟨rfl, rfl⟩
  · intro h
    obtain ⟨fn, fld, v, w, d⟩ := R
    subst h
    exact ⟨rfl, rfl⟩

/-- C2 witness: `==` on a plain right operand (with a duration LEFT operand)
uses IntEquals; `==` on a duration right operand is a type error. -/
theorem int_equality_dispatch_witness :
    scalarComparisonToEvaluator pcSample (.int intDur) (.int intPlain) "==" posA posB optsNone stPlain
      = .ok (.bool (.intEquals intDur intPlain), posB) ∧
    scalarComparisonToEvaluator pcSample (.int intPlain) (.int intDur) "==" posA posB optsNone stPlain
      = .error (.typeError posA .int) :=
  ⟨((int_equality_dispatch pcSample intDur intPlain posA posB optsNone stPlain).1 rfl).1,
   ((int_equality_dispatch pcSample intPlain intDur posA posB optsNone stPlain).2 rfl).1⟩

/-- C2 counterexample: `==` between a plain left operand and a
duration-flagged right operand does NOT compile to IntEquals — it fails with
a type error — refuting the claim that equality compiles successfully
regardless of either operand's duration flag. -/
theorem int_equality_duration_counterexample :
    scalarComparisonToEvaluator pcSample (.int intPlain) (.int intDur) "==" posA posB optsNone stPlain
      = .error (.typeError posA .int) ∧
    (Except.error (EvalError.typeError posA .int) : Except EvalError (Value × Pos))
      ≠ .ok (.bool (.intEquals intPlain intDur), posB) := by
  refine ⟨rfl, fun hcontra => ?_⟩
  simp at hcontra

/-- C3: evaluation at the failing input.  With the legacy table
{old ↦ new_it} and identifier `old[_].a` (normalized field `old.a`, iterator
field `old`), the claim requires the iterator to be resolved under the
remapped spelling `new_it`.  The code instead keys the second remap lookup on
the normalized field, so the iterator field is left as `old`: the register
entry records iterator field `old` and the handle returned by
GetIterator("old"), and the resolution still succeeds. -/
theorem legacy_remap_second_lookup_keys_on_field :
    (identToEvaluator ⟨posA, "old[_].a"⟩ optsLegacy stLegacy).2.registersInfo
      = [("r1", { field := "old", iterator := ⟨"iterOld"⟩, subFields := ["old.a"] })] ∧
    (identToEvaluator ⟨posA, "old[_].a"⟩ optsLegacy stLegacy).1
      = .ok (.int { Field := "old.a" }, posA) := by
  exact ⟨rfl, rfl⟩

/-- C4: evaluation at the failing input.  `FindStringSubmatch` returns the
leftmost match only, so its submatch slice always has length 0 or 2 and the
wrong-register-format arm of the switch is unreachable: an identifier with
two bracket groups extracts the first group's register id and succeeds
instead of failing. -/
theorem extractField_two_bracket_groups :
    extractField "a[x].b[y]" = .ok ("a[x].b", "a[x].b", "x") := rfl

/-- C5 counterexample: resolving `p.list[_].a` and then `p.list[_].b` — two
field paths sharing the iterator field `p.list`, both with the anonymous
register — leaves TWO RegisterInfo entries for that iterator field in the
compile state, not exactly one. -/
theorem anonymous_register_two_entries_counterexample :
    (stIterB.registersInfo.filter (fun kv => kv.2.field == "p.list")).length = 2 ∧
    ¬ (stIterB.registersInfo.filter (fun kv => kv.2.field == "p.list")).length = 1 := by
  exact ⟨by decide, by decide⟩

/-- C5 (amended): each anonymous register use draws a fresh register id, so
the two resolutions bind two distinct RegisterInfo entries, each recording
the shared iterator field and holding only its own resolved path in its
subfield set. -/
theorem anonymous_register_fresh_ids :
    stIterB.registersInfo
      = [("r1", { field := "p.list", iterator := ⟨"iterP"⟩, subFields := ["p.list.a"] }),
         ("r2", { field := "p.list", iterator := ⟨"iterP"⟩, subFields := ["p.list.b"] })] := by
  decide

/-- C6: for `==` between two String evaluators the override resolution order
is left operand's StringEquals hook, then the right operand's, then the
default StringEquals; for `!=` the default StringEquals is always used and
negated, without consulting either operand's override table. -/
theorem string_equality_override_resolution (pc : PatternCompiler)
    (u n : StringEvaluator) (p q : Pos) (opts : Opts) (st : state) :
    (∀ f, opOverrideStringEquals u = some f →
      scalarComparisonToEvaluator pc (.str u) (.str n) "==" p q opts st
        = .ok (.bool (.stringOverride f u n), q)) ∧
    (opOverrideStringEquals u = none → ∀ f, opOverrideStringEquals n = some f →
      scalarComparisonToEvaluator pc (.str u) (.str n) "==" p q opts st
        = .ok (.bool (.stringOverride f u n), q)) ∧
    (opOverrideStringEquals u = none → opOverrideStringEquals n = none →
      scalarComparisonToEvaluator pc (.str u) (.str n) "==" p q opts st
        = .ok (.bool (.stringEquals u n), q)) ∧
    scalarComparisonToEvaluator pc (.str u) (.str n) "!=" p q opts st
      = .ok (.bool (.not (.stringEquals u n)), q) := by
  refine ⟨fun f hf => ?_, fun hu f hf => ?_, fun hu hn => ?_, rfl⟩
  · simp [scalarComparisonToEvaluator, stringScalarCompare, stringStringCompare,
      stringEqualsResolve, wrapBool, hf]
  · simp [scalarComparisonToEvaluator, stringScalarCompare, stringStringCompare,
      stringEqualsResolve, wrapBool, StringEquals, hu, hf]
  · simp [scalarComparisonToEvaluator, stringScalarCompare, stringStringCompare,
      stringEqualsResolve, wrapBool, StringEquals, hu, hn]

/-- C6 witness: left override wins, right override is the fallback, the
default applies when neither operand has a hook, and `!=` always negates the
default equality. -/
theorem string_equality_override_resolution_witness :
    scalarComparisonToEvaluator pcSample (.str strOvL) (.str strPlain) "==" posA posB optsNone stPlain
      = .ok (.bool (.stringOverride "ovL" strOvL strPlain), posB) ∧
    scalarComparisonToEvaluator pcSample (.str strPlain) (.str strOvL) "==" posA posB optsNone stPlain
      = .ok (.bool (.stringOverride "ovL" strPlain strOvL), posB) ∧
    scalarComparisonToEvaluator pcSample (.str strPlain) (.str strPlain) "==" posA posB optsNone stPlain
      = .ok (.bool (.stringEquals strPlain strPlain), posB) ∧
    scalarComparisonToEvaluator pcSample (.str strOvL) (.str strOvL) "!=" posA posB optsNone stPlain
      = .ok (.bool (.not (.stringEquals strOvL strOvL)), posB) :=
  ⟨(string_equality_override_resolution pcSample strOvL strPlain posA posB optsNone stPlain).1 "ovL" rfl,
   (string_equality_override_resolution pcSample strPlain strOvL posA posB optsNone stPlain).2.1 rfl "ovL" rfl,
   (string_equality_override_resolution pcSample strPlain strPlain posA posB optsNone stPlain).2.2.1 rfl rfl,
   (string_equality_override_resolution pcSample strOvL strOvL posA posB optsNone stPlain).2.2.2⟩

/-- C7: for `=~` / `!~` with a String or StringArray left operand, a right
String operand with a deferred evaluation function fails with the dedicated
non-static-pattern error; a static right operand has its pattern compiled at
this point, producing the matcher evaluator (negated for `!~`), and a
pattern-compilation failure aborts the compile with an error carrying the
comparison's source position. -/
theorem pattern_right_operand_static_check (pc : PatternCompiler)
    (u : StringEvaluator) (ua : StringArrayEvaluator) (n : StringEvaluator)
    (p q : Pos) (opts : Opts) (st : state) :
    (∀ f, n.EvalFnc = some f →
      scalarComparisonToEvaluator pc (.str u) (.str n) "=~" p q opts st
        = .error (.nonStaticPattern n.Field) ∧
      scalarComparisonToEvaluator pc (.str u) (.str n) "!~" p q opts st
        = .error (.nonStaticPattern n.Field) ∧
      scalarComparisonToEvaluator pc (.strArray ua) (.str n) "=~" p q opts st
        = .error (.nonStaticPattern n.Field) ∧
      scalarComparisonToEvaluator pc (.strArray ua) (.str n) "!~" p q opts st
        = .error (.nonStaticPattern n.Field)) ∧
    (n.EvalFnc = none → ∀ n1, compilePattern pc n = .ok n1 →
      scalarComparisonToEvaluator pc (.str u) (.str n) "=~" p q opts st
        = .ok (.bool (.stringEquals u n1), q) ∧
      scalarComparisonToEvaluator pc (.str u) (.str n) "!~" p q opts st
        = .ok (.bool (.not (.stringEquals u n1)), q) ∧
      scalarComparisonToEvaluator pc (.strArray ua) (.str n) "=~" p q opts st
        = .ok (.bool (.arrayStringContains n1 ua), q) ∧
      scalarComparisonToEvaluator pc (.strArray ua) (.str n) "!~" p q opts st
        = .ok (.bool (.not (.arrayStringContains n1 ua)), q)) ∧
    (n.EvalFnc = none → ∀ msg, compilePattern pc n = .error msg →
      scalarComparisonToEvaluator pc (.str u) (.str n) "=~" p q opts st
        = .error (.genericError q msg) ∧
      scalarComparisonToEvaluator pc (.str u) (.str n) "!~" p q opts st
        = .error (.genericError q msg) ∧
      scalarComparisonToEvaluator pc (.strArray ua) (.str n) "=~" p q opts st
        = .error (.genericError q msg) ∧
      scalarComparisonToEvaluator pc (.strArray ua) (.str n) "!~" p q opts st
        = .error (.genericError q msg)) := by
  refine ⟨fun f hf => ?_, fun h0 n1 h1 => ?_, fun h0 msg h1 => ?_⟩
  · simp [scalarComparisonToEvaluator, stringScalarCompare, stringStringCompare,
      stringArrayScalarCompare, stringArrayStringCompare, patternPrematch, bindPattern, hf]
  · simp [scalarComparisonToEvaluator, stringScalarCompare, stringStringCompare,
      stringArrayScalarCompare, stringArrayStringCompare, patternPrematch, bindPattern,
      wrapBool, wrapBoolNot, StringEquals, ArrayStringContains, Not, h0, h1]
  · simp [scalarComparisonToEvaluator, stringScalarCompare, stringStringCompare,
      stringArrayScalarCompare, stringArrayStringCompare, patternPrematch, bindPattern, h0, h1]

/-- C7 witness: a deferred right operand yields the non-static-pattern error;
a static pattern compiles into the matcher evaluator; an invalid regexp
aborts with an error at the comparison's position. -/
theorem pattern_right_operand_static_check_witness :
    scalarComparisonToEvaluator pcSample (.str strPlain) (.str strDyn) "=~" posA posB optsNone stPlain
      = .error (.nonStaticPattern "f2") ∧
    scalarComparisonToEvaluator pcSample (.str strPlain) (.str strPat) "=~" posA posB optsNone stPlain
      = .ok (.bool (.stringEquals strPlain { strPat with regexp := some ⟨"abc*"⟩ }), posB) ∧
    scalarComparisonToEvaluator pcSample (.str strPlain) (.str strBad) "=~" posA posB optsNone stPlain
      = .error (.genericError posB "error parsing regexp") :=
  ⟨((pattern_right_operand_static_check pcSample strPlain strArrSample strDyn posA posB optsNone stPlain).1
      (fun _ => "x") rfl).1,
   ((pattern_right_operand_static_check pcSample strPlain strArrSample strPat posA posB optsNone stPlain).2.1
      rfl { strPat with regexp := some ⟨"abc*"⟩ } rfl).1,
   ((pattern_right_operand_static_check pcSample strPlain strArrSample strBad posA posB optsNone stPlain).2.2
      rfl "error parsing regexp" rfl).1⟩

/-- C9: whenever an array-membership comparison compiles under `in`, the same
operands under `notin` compile to exactly the logical negation of that
evaluator, and for every Context the two evaluate to opposite booleans. -/
theorem notin_negates_in (u n : Value) (p q : Pos) (opts : Opts) (st : state)
    (e : BoolEvaluator)
    (h : arrayComparisonToEvaluator u n "in" p q opts st = .ok (.bool e, q)) :
    arrayComparisonToEvaluator u n "notin" p q opts st = .ok (.bool (.not e), q) ∧
    ∀ ctx, evalBool (.not e) ctx = !(evalBool e ctx) := by
  refine ⟨?_, fun ctx => rfl⟩
  cases u <;> cases n <;>
    simp_all [arrayComparisonToEvaluator, wrapArrayOp, ArrayBoolContains, ArrayStringContains,
      ArrayStringMatches, ArrayIntEquals, ArrayIntMatches, Not]

/-- C9 witness: a concrete bool-in-array membership and its `notin` twin. -/
theorem notin_negates_in_witness :
    arrayComparisonToEvaluator (.bool leafTrue) (.boolArray boolArrSample) "notin" posA posB optsNone stPlain
      = .ok (.bool (.not (.arrayBoolContains leafTrue boolArrSample)), posB) ∧
    ∀ ctx, evalBool (.not (.arrayBoolContains leafTrue boolArrSample)) ctx
      = !(evalBool (.arrayBoolContains leafTrue boolArrSample) ctx) :=
  notin_negates_in (.bool leafTrue) (.boolArray boolArrSample) posA posB optsNone stPlain
    (.arrayBoolContains leafTrue boolArrSample) rfl

/-- C8: a register id never denotes two iterator field paths.  Under the
hypotheses describing one identifier resolution that reaches the register
binding step with a drawn id `k` that is already bound: if the existing
binding's iterator field differs from the resolved one, the compile fails
with the register-conflict error and the registers map is left untouched
(the whole state changes only by the consumed id supply); if it matches, the
id keeps its single entry and the resolved field is merely added to that
entry's subfield set. -/
theorem register_binding_unique_iterator_field (obj : ident) (opts : Opts) (st : state)
    (f0 itf0 k : String) (ks : List String) (it : Iterator) (info : registerInfo)
    (hc : assocFind opts.Constants obj.Ident = none)
    (hm : assocFind st.macros obj.Ident = none)
    (he : extractField obj.Ident = .ok (f0, itf0, "_"))
    (hl : assocFind opts.LegacyAttributes f0 = none)
    (hit : itf0 ≠ "")
    (hgi : st.model.GetIterator itf0 = .ok it)
    (hsup : st.idSupply = k :: ks)
    (hreg : assocFind st.registersInfo k = some info) :
    (info.field ≠ itf0 →
      identToEvaluator obj opts st
        = (.error (.registerMultipleFields obj.Pos k "used by multiple fields"),
           { st with idSupply := ks })) ∧
    (info.field = itf0 →
      (identToEvaluator obj opts st).2.registersInfo
        = assocUpdate st.registersInfo k
            { info with subFields := insertUnique info.subFields f0 }) := by
  constructor
  · intro hne
    simp [identToEvaluator, hc, hm, he, legacyTransform, hl, hit, hgi,
      resolveRegister, hsup, hreg, hne]
  · intro heq
    cases hge : st.model.GetEvaluator f0 k <;>
      simp [identToEvaluator, hc, hm, he, legacyTransform, hl, hit, hgi,
        resolveRegister, hsup, hreg, heq, finishIdent, hge]

/-- C8 witness: with id r1 pre-bound to iterator field other.list, resolving
p.list[_].a (whose supply hands out r1 again) fails with the conflict error
and leaves the registers map unchanged; with r1 pre-bound to p.list itself,
the entry keeps its id and gains the new subfield. -/
theorem register_binding_unique_iterator_field_witness :
    identToEvaluator ⟨posA, "p.list[_].a"⟩ optsNone stConflict
      = (.error (.registerMultipleFields posA "r1" "used by multiple fields"),
         { stConflict with idSupply := [] }) ∧
    (identToEvaluator ⟨posA, "p.list[_].a"⟩ optsNone stSameField).2.registersInfo
      = [("r1", { field := "p.list", iterator := ⟨"iterP"⟩,
                  subFields := ["p.list.x", "p.list.a"] })] :=
  ⟨(register_binding_unique_iterator_field ⟨posA, "p.list[_].a"⟩ optsNone stConflict
      "p.list.a" "p.list" "r1" [] ⟨"iterP"⟩
      { field := "other.list", iterator := ⟨"iterO"⟩, subFields := ["other.list.x"] }
      rfl rfl rfl rfl (by decide) rfl rfl rfl).1 (by decide),
   (register_binding_unique_iterator_field ⟨posA, "p.list[_].a"⟩ optsNone stSameField
      "p.list.a" "p.list" "r1" [] ⟨"iterP"⟩
      { field := "p.list", iterator := ⟨"iterP"⟩, subFields := ["p.list.x"] }
      rfl rfl rfl rfl (by decide) rfl rfl rfl).2 rfl⟩

/-- C10: identifier resolution is not atomic in the compile state.  Under the
hypotheses describing one resolution that binds a fresh register id `k` and
whose final `GetEvaluator` call fails, the function returns the model's error
while the returned compile state still contains the register binding added
before the failure. -/
theorem ident_geteval_error_keeps_binding (obj : ident) (opts : Opts) (st : state)
    (f0 itf0 k : String) (ks : List String) (it : Iterator) (msg : String)
    (hc : assocFind opts.Constants obj.Ident = none)
    (hm : assocFind st.macros obj.Ident = none)
    (he : extractField obj.Ident = .ok (f0, itf0, "_"))
    (hl : assocFind opts.LegacyAttributes f0 = none)
    (hit : itf0 ≠ "")
    (hgi : st.model.GetIterator itf0 = .ok it)
    (hsup : st.idSupply = k :: ks)
    (hreg : assocFind st.registersInfo k = none)
    (hge : st.model.GetEvaluator f0 k = .error msg) :
    identToEvaluator obj opts st
      = (.error (.modelError msg),
         { st with idSupply := ks,
                   registersInfo := st.registersInfo
                     ++ [(k, { field := itf0, iterator := it, subFields := [f0] })] }) := by
  simp [identToEvaluator, hc, hm, he, legacyTransform, hl, hit, hgi,
    resolveRegister, hsup, hreg, finishIdent, hge]

/-- C10 witness: resolving p.list[_].a against a model whose GetEvaluator
fails returns the error, yet the returned state contains the register binding
made before the failure. -/
theorem ident_geteval_error_keeps_binding_witness :
    identToEvaluator ⟨posA, "p.list[_].a"⟩ optsNone stNoEval
      = (.error (.modelError "field not found"),
         { stNoEval with
            idSupply := [],
            registersInfo := [("r1", { field := "p.list", iterator := ⟨"iterP"⟩,
                                       subFields := ["p.list.a"] })] }) :=
  ident_geteval_error_keeps_binding ⟨posA, "p.list[_].a"⟩ optsNone stNoEval
    "p.list.a" "p.list" "r1" [] ⟨"iterP"⟩ "field not found"
    rfl rfl rfl rfl (by decide) rfl rfl rfl rfl

end eval
